import Mathlib

/-!
Shallow embedding of the `pedromol/docker-restart` health-check-and-remediation
loop (Go, `main.go` plus the split-out configuration file).

External effects are modelled by oracles:
  * the process environment is a function `String → Option String`
    (`none` = unset; Go's `os.Getenv` turns `none` into `""`);
  * the runtime transport for the restart command is a function
    `RestartCmd → TransportResult` (a transport error, or a completed HTTP
    response carrying a status code that the code never inspects);
  * the webhook JSON marshaller and POST are `Except`-valued oracles.

Go's `c.Id[0:12]` slice panics when the id is shorter than 12 bytes; the
embedding represents Go byte strings as Lean strings (the ids at stake are
ASCII) and models the panic as the distinguished `Outcome.panicked`, which
aborts the remainder of the cycle.
-/

namespace DockerRestart

/-- Go `os.Getenv`: the empty string stands for an unset variable. -/
def goGetenv (env : String → Option String) (name : String) : String :=
  (env name).getD ""

/-- `getEnv` from the source: substitute the default when the environment
value is the empty string (hence also when it is unset). -/
def getEnv (env : String → Option String) (name defaultVal : String) : String :=
  let val := goGetenv env name
  if val = "" then defaultVal else val

/-- Decimal value of a character list; `none` when empty or any character is
not a digit (Go `strconv.Atoi` rejects such inputs). -/
def digitsVal (cs : List Char) : Option Nat :=
  if cs = [] then none
  else
    cs.foldl
      (fun acc c =>
        match acc with
        | none => none
        | some n => if c.isDigit then some (n * 10 + (c.toNat - 48)) else none)
      (some 0)

def int64Max : Int := 9223372036854775807

def int64Min : Int := -9223372036854775808

/-- Go `strconv.Atoi`: optional sign, decimal digits, `none` on empty or
malformed input and on values outside the int64 range (Go reports a range
error, which the caller treats the same as a syntax error). -/
def atoi (s : String) : Option Int :=
  match s.data with
  | [] => none
  | c :: rest =>
    if c = '+' then
      (digitsVal rest).bind fun n =>
        if (n : Int) ≤ int64Max then some (n : Int) else none
    else if c = '-' then
      (digitsVal rest).bind fun n =>
        if int64Min ≤ -(n : Int) then some (-(n : Int)) else none
    else
      (digitsVal (c :: rest)).bind fun n =>
        if (n : Int) ≤ int64Max then some (n : Int) else none

/-- One second in nanoseconds (Go `time.Second`). -/
def SECOND : Int := 1000000000

/-- Two's-complement wrap-around of int64 arithmetic (Go
`time.Duration(t) * time.Second`). -/
def wrap64 (x : Int) : Int :=
  (x + 2 ^ 63) % 2 ^ 64 - 2 ^ 63

/-- `getEnvDuration` from the source: resolve the variable with the decimal
rendering of the default as fallback, parse with `Atoi`, fall back to the
default on a parse error, and scale to nanoseconds. -/
def getEnvDuration (env : String → Option String) (name : String)
    (defaultVal : Int) : Int :=
  let val := getEnv env name (toString defaultVal)
  let t :=
    match atoi val with
    | none => defaultVal
    | some t => t
  wrap64 (t * SECOND)

/-- The configuration record (`config` in the source). Durations are int64
nanoseconds. -/
structure config where
  DockerSocks : String
  ContainerLabel : String
  Interval : Int
  StartPeriod : Int
  DefaultStopTimeout : String
  RequestTimeout : Int
  WebHookUrl : String
  WebHookKey : String
  MetricsPort : String
  MetricsEnabled : String
deriving DecidableEq

/-- `InitConfig` from the source: resolve every option from the environment
with its documented default. -/
def InitConfig (env : String → Option String) : config :=
  { DockerSocks := getEnv env "DOCKER_SOCK" "/var/run/docker.sock"
    ContainerLabel := getEnv env "AUTOHEAL_CONTAINER_LABEL" "all"
    Interval := getEnvDuration env "AUTOHEAL_INTERVAL" 5
    StartPeriod := getEnvDuration env "AUTOHEAL_START_PERIOD" 0
    DefaultStopTimeout := getEnv env "AUTOHEAL_DEFAULT_STOP_TIMEOUT" "10"
    RequestTimeout := getEnvDuration env "CURL_TIMEOUT" 30
    WebHookUrl := getEnv env "WEBHOOK_URL" ""
    WebHookKey := getEnv env "WEBHOOK_KEY" "text"
    MetricsPort := getEnv env "METRICS_PORT" "2333"
    MetricsEnabled := getEnv env "METRICS_ENABLED" "true" }

/-- String constant `NULL` from the source. -/
def NULL : String := "null"

/-- String constant `RESTARTING` from the source. -/
def RESTARTING : String := "restarting"

/-- String constant `CONTENT_TYPE` from the source. -/
def CONTENT_TYPE : String := "application/json"

/-- `Container` from the source: one record of the runtime listing response. -/
structure Container where
  Id : String
  Names : List String
  State : String
  Labels : List (String × String)
deriving DecidableEq

/-- Go map indexing on the `Labels` map: the zero value `""` when the key is
absent. -/
def labelGet (labels : List (String × String)) (key : String) : String :=
  (labels.lookup key).getD ""

/-- A restart command as sent to the runtime: `POST
.../containers/<id>/restart?t=<timeout>` with an empty form body. -/
structure RestartCmd where
  id : String
  timeout : String
deriving DecidableEq

/-- Result of one HTTP round trip: a transport error, or a completed response
with its status code. The source never inspects the status code. -/
inductive TransportResult where
  | error : TransportResult
  | completed : Nat → TransportResult
deriving DecidableEq

/-- The restart command built by `restartContainer`: the timeout parameter is
the override when non-empty, else the configured default stop timeout. -/
def restartCmdFor (cfg : config) (id timeout : String) : RestartCmd :=
  { id := id, timeout := if timeout ≠ "" then timeout else cfg.DefaultStopTimeout }

/-- `restartContainer` from the source: issue the restart command over the
transport and return whatever the transport returns; no status inspection. -/
def restartContainer (cfg : config) (transport : RestartCmd → TransportResult)
    (id timeout : String) : TransportResult :=
  transport (restartCmdFor cfg id timeout)

/-- Per-container outcome of one cycle iteration. `panicked` models the Go
panic on `c.Id[0:12]` when the id is shorter than 12 bytes. -/
inductive Outcome where
  | panicked
  | skippedNoName
  | skippedAlreadyRestarting
  | restartedSuccess
  | restartedFailure
deriving DecidableEq

/-- The observable effects of processing one container: its outcome, the
restart commands issued, the messages passed to `notify`, and the
`addMetric`-driven counter increments. -/
structure StepResult where
  outcome : Outcome
  commands : List RestartCmd
  notifyCalls : List String
  metricAdds : List (String × String)
deriving DecidableEq

/-- `addMetric` from the source: increment the counter only when metrics are
enabled; returns the counter increments performed. -/
def addMetric (cfg : config) (key value : String) : List (String × String) :=
  if cfg.MetricsEnabled = "true" then [(key, value)] else []

/-- The message `restart` formats for `notify`, with timestamp `t`, display
name and 12-character id prefix. -/
def restartMessage (success : Bool) (t name id : String) : String :=
  t ++ " Container " ++ name ++ " (" ++ id ++ ") found to be unhealthy. " ++
    (if success then "Successfully restarted the container.\n"
     else "Failed to restart the container.\n")

/-- The `restart` method from the source: call `restartContainer` with the
container's `autoheal.stop.timeout` label, then record metric and
notification for the failure or success branch. -/
def restart (cfg : config) (transport : RestartCmd → TransportResult)
    (c : Container) (id t : String) : StepResult :=
  let timeoutLabel := labelGet c.Labels "autoheal.stop.timeout"
  match restartContainer cfg transport c.Id timeoutLabel with
  | TransportResult.error =>
    { outcome := Outcome.restartedFailure
      commands := [restartCmdFor cfg c.Id timeoutLabel]
      notifyCalls := [restartMessage false t (c.Names.headD "") id]
      metricAdds := addMetric cfg (c.Names.headD "") "Failed to restart the container" }
  | TransportResult.completed _ =>
    { outcome := Outcome.restartedSuccess
      commands := [restartCmdFor cfg c.Id timeoutLabel]
      notifyCalls := [restartMessage true t (c.Names.headD "") id]
      metricAdds := addMetric cfg (c.Names.headD "") "Successfully restarted the container" }

/-- One iteration of the inner loop of `main`: slice the 12-character id
prefix (panicking when the id is shorter), then skip nameless containers,
then skip restarting ones, else restart. -/
def processContainer (cfg : config) (transport : RestartCmd → TransportResult)
    (t : String) (c : Container) : StepResult :=
  if c.Id.length < 12 then
    { outcome := Outcome.panicked, commands := [], notifyCalls := [], metricAdds := [] }
  else
    let id := c.Id.take 12
    if c.Names = [] ∨ c.Names.headD "" = NULL then
      { outcome := Outcome.skippedNoName, commands := [], notifyCalls := [], metricAdds := [] }
    else if c.State = RESTARTING then
      { outcome := Outcome.skippedAlreadyRestarting, commands := [], notifyCalls := [],
        metricAdds := [] }
    else
      restart cfg transport c id t

/-- The inner loop of `main` over the listed containers, in list order; a
panic aborts the rest of the cycle (the Go process dies). -/
def processList (cfg : config) (transport : RestartCmd → TransportResult)
    (t : String) : List Container → List StepResult
  | [] => []
  | c :: rest =>
    let r := processContainer cfg transport t c
    if r.outcome = Outcome.panicked then [r]
    else r :: processList cfg transport t rest

/-- One cycle of `main`: when the listing query fails the error is only
logged and nothing is processed; otherwise every listed container is
processed in order. -/
def runCycle (cfg : config) (transport : RestartCmd → TransportResult)
    (t : String) : Except String (List Container) → List StepResult
  | Except.error _ => []
  | Except.ok cs => processList cfg transport t cs

/-- The filter object of `getContainers`: always `health: ["unhealthy"]`,
plus `label: ["<filter>=true"]` when the configured label filter is not
`"all"`. -/
def getContainersFilters (cfg : config) : List (String × List String) :=
  [("health", ["unhealthy"])] ++
    (if cfg.ContainerLabel ≠ "all" then [("label", [cfg.ContainerLabel ++ "=true"])] else [])

/-- Observable effects and result of one `notify` call. -/
structure NotifyResult where
  stdout : List String
  posts : List (String × String × String)
  err : Option String
deriving DecidableEq

/-- `notify` from the source: always print the message; when a webhook URL is
configured, marshal `{<payload key>: message}` and POST it, propagating a
marshalling or POST error. -/
def notify (cfg : config) (marshal : String → String → Except String String)
    (post : String → String → String → Except String Unit)
    (message : String) : NotifyResult :=
  if cfg.WebHookUrl ≠ "" then
    match marshal cfg.WebHookKey message with
    | Except.error e => { stdout := [message], posts := [], err := some e }
    | Except.ok body =>
      match post cfg.WebHookUrl CONTENT_TYPE body with
      | Except.error e =>
        { stdout := [message], posts := [(cfg.WebHookUrl, CONTENT_TYPE, body)], err := some e }
      | Except.ok _ =>
        { stdout := [message], posts := [(cfg.WebHookUrl, CONTENT_TYPE, body)], err := none }
  else
    { stdout := [message], posts := [], err := none }

/-- A concrete configuration holding every documented default (what
`InitConfig` produces in an empty environment). -/
def cfgTest : config :=
  { DockerSocks := "/var/run/docker.sock"
    ContainerLabel := "all"
    Interval := 5000000000
    StartPeriod := 0
    DefaultStopTimeout := "10"
    RequestTimeout := 30000000000
    WebHookUrl := ""
    WebHookKey := "text"
    MetricsPort := "2333"
    MetricsEnabled := "true" }

/-- A well-formed unhealthy container with a 16-character id and no labels. -/
def cWeb : Container :=
  { Id := "0123456789abcdef", Names := ["/web"], State := "unhealthy", Labels := [] }

/-- A second well-formed unhealthy container. -/
def cDb : Container :=
  { Id := "fedcba9876543210", Names := ["/db"], State := "unhealthy", Labels := [] }

/-- An eligible-looking container whose id has only 2 characters. -/
def cShortWeb : Container :=
  { Id := "ab", Names := ["/web"], State := "unhealthy", Labels := [] }

/-- A nameless container whose id has only 2 characters. -/
def cShortNoName : Container :=
  { Id := "ab", Names := [], State := "unhealthy", Labels := [] }

/-- A named restarting container whose id has only 2 characters. -/
def cShortRestarting : Container :=
  { Id := "ab", Names := ["/db"], State := "restarting", Labels := [] }

/-- A nameless restarting container with a well-formed id. -/
def cNoNameRestarting : Container :=
  { Id := "0123456789abcdef", Names := [], State := "restarting", Labels := [] }

/-- A nameless restarting container whose id has only 2 characters. -/
def cShortNoNameRestarting : Container :=
  { Id := "ab", Names := [], State := "restarting", Labels := [] }

theorem processContainer_eligible (cfg : config) (transport : RestartCmd → TransportResult)
    (t : String) (c : Container) (hlen : 12 ≤ c.Id.length) (hne : c.Names ≠ [])
    (hnull : c.Names.headD "" ≠ NULL) (hstate : c.State ≠ RESTARTING) :
    processContainer cfg transport t c = restart cfg transport c (c.Id.take 12) t := by
  have h1 : ¬ c.Id.length < 12 := by omega
  have h2 : ¬ (c.Names = [] ∨ c.Names.headD "" = NULL) := by
    rintro (h | h)
    exacts [hne h, hnull h]
  simp only [processContainer, if_neg h1, if_neg h2, if_neg hstate]

theorem restart_commands (cfg : config) (transport : RestartCmd → TransportResult)
    (c : Container) (id t : String) :
    (restart cfg transport c id t).commands =
      [restartCmdFor cfg c.Id (labelGet c.Labels "autoheal.stop.timeout")] := by
  cases h : transport (restartCmdFor cfg c.Id (labelGet c.Labels "autoheal.stop.timeout")) <;>
    simp [restart, restartContainer, h]

theorem restart_outcome_eq (cfg : config) (transport : RestartCmd → TransportResult)
    (c : Container) (id t : String) :
    ((restart cfg transport c id t).outcome = Outcome.restartedSuccess ↔
      transport (restartCmdFor cfg c.Id (labelGet c.Labels "autoheal.stop.timeout")) ≠
        TransportResult.error) ∧
    ((restart cfg transport c id t).outcome = Outcome.restartedFailure ↔
      transport (restartCmdFor cfg c.Id (labelGet c.Labels "autoheal.stop.timeout")) =
        TransportResult.error) := by
  cases h : transport (restartCmdFor cfg c.Id (labelGet c.Labels "autoheal.stop.timeout")) <;>
    simp [restart, restartContainer, h]

/-- C1 (amended with the 12-character proviso): for every container whose id
has at least 12 characters, that is not nameless (empty `Names` or first name
`"null"`) and not in state `"restarting"`, exactly one restart command is
issued, and its timeout parameter is the `autoheal.stop.timeout` label value
when that label is present and non-empty, else the configured default stop
timeout. -/
theorem eligible_restart_timeout (cfg : config) (transport : RestartCmd → TransportResult)
    (t : String) (c : Container) (hlen : 12 ≤ c.Id.length) (hne : c.Names ≠ [])
    (hnull : c.Names.headD "" ≠ NULL) (hstate : c.State ≠ RESTARTING) :
    (processContainer cfg transport t c).commands =
      [{ id := c.Id
         timeout :=
           if labelGet c.Labels "autoheal.stop.timeout" = "" then cfg.DefaultStopTimeout
           else labelGet c.Labels "autoheal.stop.timeout" }] := by
  rw [processContainer_eligible cfg transport t c hlen hne hnull hstate, restart_commands]
  by_cases h : labelGet c.Labels "autoheal.stop.timeout" = "" <;> simp [restartCmdFor, h]

/-- Witness for C1 at a concrete eligible container with no timeout label. -/
theorem eligible_restart_timeout_witness :
    (processContainer cfgTest (fun _ => TransportResult.completed 204) "T" cWeb).commands =
      [{ id := cWeb.Id
         timeout :=
           if labelGet cWeb.Labels "autoheal.stop.timeout" = "" then cfgTest.DefaultStopTimeout
           else labelGet cWeb.Labels "autoheal.stop.timeout" }] :=
  eligible_restart_timeout cfgTest (fun _ => TransportResult.completed 204) "T" cWeb
    (by decide) (by decide) (by decide) (by decide)

/-- Counterexample for C1 as frozen: `cShortWeb` is neither nameless nor
restarting, yet no restart command is issued for it (the id slice panics
first). -/
theorem eligible_restart_timeout_cex :
    (cShortWeb.Names ≠ [] ∧ cShortWeb.Names.headD "" ≠ NULL ∧
      cShortWeb.State ≠ RESTARTING) ∧
    (processContainer cfgTest (fun _ => TransportResult.completed 204) "T" cShortWeb).commands =
      [] := by decide

/-- C2 (amended with the 12-character proviso): a container whose id has at
least 12 characters and whose name sequence is empty or starts with `"null"`
gets outcome Skipped-NoName, with no restart command, no notification and no
metric increment. -/
theorem noname_skip (cfg : config) (transport : RestartCmd → TransportResult)
    (t : String) (c : Container) (hlen : 12 ≤ c.Id.length)
    (hname : c.Names = [] ∨ c.Names.headD "" = NULL) :
    processContainer cfg transport t c =
      { outcome := Outcome.skippedNoName, commands := [], notifyCalls := [],
        metricAdds := [] } := by
  have h1 : ¬ c.Id.length < 12 := by omega
  simp only [processContainer, if_neg h1, if_pos hname]

/-- Witness for C2 at a concrete nameless container with a well-formed id. -/
theorem noname_skip_witness :
    processContainer cfgTest (fun _ => TransportResult.completed 204) "T" cNoNameRestarting =
      { outcome := Outcome.skippedNoName, commands := [], notifyCalls := [],
        metricAdds := [] } :=
  noname_skip cfgTest (fun _ => TransportResult.completed 204) "T" cNoNameRestarting
    (by decide) (by decide)

/-- Counterexample for C2 as frozen: a nameless container whose id has fewer
than 12 characters does not get outcome Skipped-NoName (the id slice panics
first). -/
theorem noname_skip_cex :
    cShortNoName.Names = [] ∧
    (processContainer cfgTest (fun _ => TransportResult.completed 204) "T"
        cShortNoName).outcome ≠ Outcome.skippedNoName := by decide

/-- C3 (amended with the name and 12-character provisos): a container in
state `"restarting"` whose id has at least 12 characters and whose name
sequence is nonempty with first name other than `"null"` gets outcome
Skipped-AlreadyRestarting and no restart command. -/
theorem restarting_skip (cfg : config) (transport : RestartCmd → TransportResult)
    (t : String) (c : Container) (hlen : 12 ≤ c.Id.length) (hne : c.Names ≠ [])
    (hnull : c.Names.headD "" ≠ NULL) (hstate : c.State = RESTARTING) :
    processContainer cfg transport t c =
      { outcome := Outcome.skippedAlreadyRestarting, commands := [], notifyCalls := [],
        metricAdds := [] } := by
  have h1 : ¬ c.Id.length < 12 := by omega
  have h2 : ¬ (c.Names = [] ∨ c.Names.headD "" = NULL) := by
    rintro (h | h)
    exacts [hne h, hnull h]
  simp only [processContainer, if_neg h1, if_neg h2, if_pos hstate]

/-- Witness for C3 at a concrete named restarting container. -/
theorem restarting_skip_witness :
    processContainer cfgTest (fun _ => TransportResult.completed 204) "T"
        { Id := "fedcba9876543210", Names := ["/db"], State := "restarting", Labels := [] } =
      { outcome := Outcome.skippedAlreadyRestarting, commands := [], notifyCalls := [],
        metricAdds := [] } :=
  restarting_skip cfgTest (fun _ => TransportResult.completed 204) "T"
    { Id := "fedcba9876543210", Names := ["/db"], State := "restarting", Labels := [] }
    (by decide) (by decide) (by decide) (by decide)

/-- Counterexample for C3 as frozen: a restarting container with a short id
panics instead, and a nameless restarting container is classified
Skipped-NoName by the earlier name check; neither gets
Skipped-AlreadyRestarting. -/
theorem restarting_skip_cex :
    (cShortRestarting.State = RESTARTING ∧
      (processContainer cfgTest (fun _ => TransportResult.completed 204) "T"
          cShortRestarting).outcome ≠ Outcome.skippedAlreadyRestarting) ∧
    (cNoNameRestarting.State = RESTARTING ∧
      (processContainer cfgTest (fun _ => TransportResult.completed 204) "T"
          cNoNameRestarting).outcome ≠ Outcome.skippedAlreadyRestarting) := by decide

/-- C4: for an eligible container the outcome is Restarted-Success exactly
when the transport does not error on the issued command (any completed
response, whatever its status code, counts as success), and
Restarted-Failure exactly when the transport errors. -/
theorem restart_success_iff_transport (cfg : config)
    (transport : RestartCmd → TransportResult) (t : String) (c : Container)
    (hlen : 12 ≤ c.Id.length) (hne : c.Names ≠ []) (hnull : c.Names.headD "" ≠ NULL)
    (hstate : c.State ≠ RESTARTING) :
    ((processContainer cfg transport t c).outcome = Outcome.restartedSuccess ↔
      transport (restartCmdFor cfg c.Id (labelGet c.Labels "autoheal.stop.timeout")) ≠
        TransportResult.error) ∧
    ((processContainer cfg transport t c).outcome = Outcome.restartedFailure ↔
      transport (restartCmdFor cfg c.Id (labelGet c.Labels "autoheal.stop.timeout")) =
        TransportResult.error) := by
  rw [processContainer_eligible cfg transport t c hlen hne hnull hstate]
  exact restart_outcome_eq cfg transport c (c.Id.take 12) t

/-- Witness for C4: a completed 500 response still yields
Restarted-Success. -/
theorem restart_success_iff_transport_witness :
    ((processContainer cfgTest (fun _ => TransportResult.completed 500) "T" cDb).outcome =
        Outcome.restartedSuccess ↔
      (fun _ => TransportResult.completed 500)
          (restartCmdFor cfgTest cDb.Id (labelGet cDb.Labels "autoheal.stop.timeout")) ≠
        TransportResult.error) ∧
    ((processContainer cfgTest (fun _ => TransportResult.completed 500) "T" cDb).outcome =
        Outcome.restartedFailure ↔
      (fun _ => TransportResult.completed 500)
          (restartCmdFor cfgTest cDb.Id (labelGet cDb.Labels "autoheal.stop.timeout")) =
        TransportResult.error) :=
  restart_success_iff_transport cfgTest (fun _ => TransportResult.completed 500) "T" cDb
    (by decide) (by decide) (by decide) (by decide)

/-- C5: a failed listing query abandons the whole cycle (no container is
processed, so no restart command is issued), while a restart-command failure
for one container leaves that container with outcome Restarted-Failure and
does not stop the rest of the list from being processed in order. -/
theorem cycle_failure_policy (cfg : config) (transport : RestartCmd → TransportResult)
    (t : String) :
    (∀ e : String, runCycle cfg transport t (Except.error e) = []) ∧
    (∀ (c : Container) (rest : List Container),
      (processContainer cfg transport t c).outcome = Outcome.restartedFailure →
      processList cfg transport t (c :: rest) =
        processContainer cfg transport t c :: processList cfg transport t rest) := by
  refine ⟨fun e => rfl, fun c rest h => ?_⟩
  simp [processList, h]

/-- Witness for C5: an erroring listing yields no step, and a container whose
restart transport fails does not stop the next container from being
processed. -/
theorem cycle_failure_policy_witness :
    runCycle cfgTest (fun _ => TransportResult.error) "T" (Except.error "boom") = [] ∧
    processList cfgTest (fun _ => TransportResult.error) "T" [cWeb, cDb] =
      processContainer cfgTest (fun _ => TransportResult.error) "T" cWeb ::
        processList cfgTest (fun _ => TransportResult.error) "T" [cDb] :=
  ⟨(cycle_failure_policy cfgTest (fun _ => TransportResult.error) "T").1 "boom",
   (cycle_failure_policy cfgTest (fun _ => TransportResult.error) "T").2 cWeb [cDb]
     (by decide)⟩

/-- C6: the listing filter object always maps `health` to `["unhealthy"]`,
and maps `label` to `["<filter>=true"]` exactly when the configured label
filter is not `"all"` (no `label` key otherwise). -/
theorem listing_filter_object (cfg : config) :
    (getContainersFilters cfg).lookup "health" = some ["unhealthy"] ∧
    (getContainersFilters cfg).lookup "label" =
      (if cfg.ContainerLabel = "all" then none else some [cfg.ContainerLabel ++ "=true"]) := by
  by_cases h : cfg.ContainerLabel = "all" <;>
    simp [getContainersFilters, h, List.lookup]

/-- C7: configuration resolution is total and default-driven: an unset
variable resolves to its documented default, an unparsable duration value
falls back to its documented default, and the empty environment yields
exactly the documented default configuration (interval 5s, warm-up 0s, stop
timeout `"10"`, request timeout 30s, and the remaining string defaults). -/
theorem config_resolution_defaults :
    (∀ (env : String → Option String) (name defaultVal : String),
      env name = none → getEnv env name defaultVal = defaultVal) ∧
    (∀ (env : String → Option String) (name : String) (defaultVal : Int),
      atoi (getEnv env name (toString defaultVal)) = none →
      getEnvDuration env name defaultVal = wrap64 (defaultVal * SECOND)) ∧
    InitConfig (fun _ => none) = cfgTest ∧
    cfgTest.Interval = 5 * SECOND ∧ cfgTest.StartPeriod = 0 ∧
    cfgTest.DefaultStopTimeout = "10" ∧ cfgTest.RequestTimeout = 30 * SECOND := by
  refine ⟨?_, ?_, by decide, by decide, by decide, by decide, by decide⟩
  · intro env name d h
    simp [getEnv, goGetenv, h]
  · intro env name d h
    simp [getEnvDuration, h]

/-- Witness for C7: an unset string option and an unparsable duration both
resolve to their defaults. -/
theorem config_resolution_defaults_witness :
    getEnv (fun _ => none) "WEBHOOK_KEY" "text" = "text" ∧
    getEnvDuration (fun _ => some "5s") "AUTOHEAL_INTERVAL" 5 = wrap64 (5 * SECOND) :=
  ⟨config_resolution_defaults.1 (fun _ => none) "WEBHOOK_KEY" "text" rfl,
   config_resolution_defaults.2.1 (fun _ => some "5s") "AUTOHEAL_INTERVAL" 5 (by decide)⟩

/-- C8: `notify` always writes the message to standard output; with an empty
webhook URL it performs no POST and succeeds, and with a configured URL it
succeeds exactly when marshalling `{<payload key>: message}` and the POST
both succeed. -/
theorem notify_contract (cfg : config) (marshal : String → String → Except String String)
    (post : String → String → String → Except String Unit) (message : String) :
    (notify cfg marshal post message).stdout = [message] ∧
    (cfg.WebHookUrl = "" →
      (notify cfg marshal post message).posts = [] ∧
      (notify cfg marshal post message).err = none) ∧
    (cfg.WebHookUrl ≠ "" →
      ((notify cfg marshal post message).err = none ↔
        ∃ body, marshal cfg.WebHookKey message = Except.ok body ∧
          post cfg.WebHookUrl CONTENT_TYPE body = Except.ok ())) := by
  by_cases h : cfg.WebHookUrl = ""
  · refine ⟨?_, fun _ => ?_, fun hc => absurd h hc⟩ <;> simp [notify, h]
  · cases hm : marshal cfg.WebHookKey message with
    | error e =>
      refine ⟨?_, fun hc => absurd hc h, fun _ => ?_⟩ <;> simp [notify, h, hm]
    | ok body =>
      cases hp : post cfg.WebHookUrl CONTENT_TYPE body with
      | error e =>
        refine ⟨?_, fun hc => absurd hc h, fun _ => ?_⟩ <;> simp [notify, h, hm, hp]
      | ok u =>
        refine ⟨?_, fun hc => absurd hc h, fun _ => ?_⟩ <;> simp [notify, h, hm, hp]

/-- Witness for C8 at the default (webhook-less) configuration. -/
theorem notify_contract_witness :
    (notify cfgTest (fun k m => Except.ok (k ++ m)) (fun _ _ _ => Except.ok ())
        "hello").stdout = ["hello"] ∧
    ((notify cfgTest (fun k m => Except.ok (k ++ m)) (fun _ _ _ => Except.ok ())
        "hello").posts = [] ∧
      (notify cfgTest (fun k m => Except.ok (k ++ m)) (fun _ _ _ => Except.ok ())
        "hello").err = none) :=
  ⟨(notify_contract cfgTest (fun k m => Except.ok (k ++ m)) (fun _ _ _ => Except.ok ())
      "hello").1,
   (notify_contract cfgTest (fun k m => Except.ok (k ++ m)) (fun _ _ _ => Except.ok ())
      "hello").2.1 rfl⟩

/-- C9: a container whose id has fewer than 12 characters makes the loop
body panic before any eligibility check: the outcome is `panicked` and
nothing is issued, notified or recorded. -/
theorem short_id_panics (cfg : config) (transport : RestartCmd → TransportResult)
    (t : String) (c : Container) (h : c.Id.length < 12) :
    processContainer cfg transport t c =
      { outcome := Outcome.panicked, commands := [], notifyCalls := [],
        metricAdds := [] } := by
  simp [processContainer, h]

/-- Witness for C9 at a short-id container that is both nameless and
restarting, so it would otherwise have been skipped. -/
theorem short_id_panics_witness :
    processContainer cfgTest (fun _ => TransportResult.completed 204) "T"
        cShortNoNameRestarting =
      { outcome := Outcome.panicked, commands := [], notifyCalls := [],
        metricAdds := [] } :=
  short_id_panics cfgTest (fun _ => TransportResult.completed 204) "T"
    cShortNoNameRestarting (by decide)

/-- C10: an environment variable set to the empty string resolves exactly
like an unset one: `getEnv` returns the default in both cases. -/
theorem empty_env_equals_unset (env unsetEnv : String → Option String)
    (name defaultVal : String) (h : env name = some "") (h2 : unsetEnv name = none) :
    getEnv env name defaultVal = defaultVal ∧
    getEnv env name defaultVal = getEnv unsetEnv name defaultVal := by
  constructor <;> simp [getEnv, goGetenv, h, h2]

/-- Witness for C10 at a concrete empty-string environment. -/
theorem empty_env_equals_unset_witness :
    getEnv (fun _ => some "") "WEBHOOK_URL" "dflt" = "dflt" ∧
    getEnv (fun _ => some "") "WEBHOOK_URL" "dflt" =
      getEnv (fun _ => none) "WEBHOOK_URL" "dflt" :=
  empty_env_equals_unset (fun _ => some "") (fun _ => none) "WEBHOOK_URL" "dflt" rfl rfl

end DockerRestart
